import Mathlib

/-!
Verification of the command-adapter and diff-presentation logic of the
chezmoi-manager repository.

Modelling conventions:
* Python strings that undergo per-character processing (splitting into lines,
  stripping whitespace) are modelled as `List Char` (`PyStr`); other strings
  are Lean `String`s.
* `subprocess.run` is modelled by an abstract outcome (`RunOutcome`): either a
  completed process with captured stdout/stderr/returncode, a missing
  executable (`FileNotFoundError`), or an expired timeout.
* Raising an exception is modelled with `Except`.
* Filesystem path resolution (`Path.expanduser().resolve()`) and JSON parsing
  (`json.loads`) are external-library calls; they are modelled as explicit
  functional parameters returning `Option` (with `none` for a raised
  exception/parse failure).
-/

namespace ChezMan

/-- Python strings, modelled as lists of characters. -/
abbrev PyStr := List Char

/-- Whitespace test used by Python's `str.strip`. -/
def isWS (c : Char) : Bool := c.isWhitespace

/-- Python `str.lstrip()`: drop leading whitespace. -/
def pyLStrip (s : PyStr) : PyStr := s.dropWhile isWS

/-- Python `str.rstrip()`: drop trailing whitespace. -/
def pyRStrip (s : PyStr) : PyStr := (s.reverse.dropWhile isWS).reverse

/-- Python `str.strip()`: drop whitespace at both ends. -/
def pyStrip (s : PyStr) : PyStr := pyLStrip (pyRStrip s)

/-- Python `str.split("\n")`: split on every newline character. -/
def pySplitNl : PyStr → List PyStr
  | [] => [[]]
  | c :: rest =>
    let r := pySplitNl rest
    if c = '\n' then [] :: r
    else (c :: r.headD []) :: r.tail

theorem pySplitNl_nil : pySplitNl [] = [[]] := rfl

theorem pySplitNl_cons (c : Char) (rest : PyStr) :
    pySplitNl (c :: rest) =
      if c = '\n' then [] :: pySplitNl rest
      else (c :: (pySplitNl rest).headD []) :: (pySplitNl rest).tail := rfl

theorem pySplitNl_ne_nil (s : PyStr) : pySplitNl s ≠ [] := by
  cases s with
  | nil => simp [pySplitNl]
  | cons c rest =>
    rw [pySplitNl_cons]
    split <;> simp

theorem pySplitNl_cons_of_ne (c : Char) (rest : PyStr) (h : c ≠ '\n') :
    pySplitNl (c :: rest) =
      (c :: (pySplitNl rest).headD []) :: (pySplitNl rest).tail := by
  rw [pySplitNl_cons, if_neg h]

/-- Strip is unchanged by removing a leading whitespace character. -/
theorem pyStrip_cons_ws (c : Char) (x : PyStr) (h : isWS c = true) :
    pyStrip (c :: x) = pyStrip x := by
  unfold pyStrip pyLStrip pyRStrip
  rcases h' : (x.reverse.dropWhile isWS).reverse with _ | ⟨a, t⟩
  · have : x.reverse.dropWhile isWS = [] := by
      have := congrArg List.reverse h'
      simpa using this
    simp [List.reverse_cons, List.dropWhile_append, this, List.dropWhile, h]
  · simp only [List.reverse_cons, List.dropWhile_append]
    have hne : ¬ (List.dropWhile isWS x.reverse).isEmpty = true := by
      intro hh
      rw [List.isEmpty_iff] at hh
      simp [hh] at h'
    simp only [if_neg hne]
    rw [List.reverse_append]
    simp only [List.reverse_cons, List.reverse_nil, List.nil_append, List.singleton_append,
      List.dropWhile, h]
    rw [h']
    simp [List.dropWhile]

/-- Strip is unchanged by removing a trailing whitespace character. -/
theorem pyStrip_snoc_ws (c : Char) (x : PyStr) (h : isWS c = true) :
    pyStrip (x ++ [c]) = pyStrip x := by
  unfold pyStrip pyRStrip
  rw [List.reverse_append]
  simp [List.dropWhile, h]

/-- Append a character to the last chunk of a non-empty chunk list (the effect
a trailing non-newline character has on `pySplitNl`). -/
def snocLast (c : Char) : List PyStr → List PyStr
  | [] => [[c]]
  | [x] => [x ++ [c]]
  | x :: y :: ys => x :: snocLast c (y :: ys)

theorem snocLast_cons_of_ne_nil (c : Char) (x : PyStr) (r : List PyStr)
    (h : r ≠ []) : snocLast c (x :: r) = x :: snocLast c r := by
  cases r with
  | nil => exact absurd rfl h
  | cons y ys => rfl

theorem pySplitNl_append_newline (l : PyStr) :
    pySplitNl (l ++ ['\n']) = pySplitNl l ++ [[]] := by
  induction l with
  | nil => rfl
  | cons c t ih =>
    by_cases hc : c = '\n'
    · subst hc
      rw [List.cons_append, pySplitNl_cons, if_pos rfl, ih, pySplitNl_cons, if_pos rfl,
        List.cons_append]
    · rw [List.cons_append, pySplitNl_cons_of_ne c _ hc, ih, pySplitNl_cons_of_ne c t hc]
      rcases h' : pySplitNl t with _ | ⟨h, tl⟩
      · exact absurd h' (pySplitNl_ne_nil t)
      · simp

theorem pySplitNl_append_single (l : PyStr) (c : Char) (hc : c ≠ '\n') :
    pySplitNl (l ++ [c]) = snocLast c (pySplitNl l) := by
  induction l with
  | nil =>
    rw [List.nil_append, pySplitNl_cons_of_ne c [] hc]
    simp [pySplitNl, snocLast]
  | cons a t ih =>
    by_cases ha : a = '\n'
    · subst ha
      rw [List.cons_append, pySplitNl_cons, if_pos rfl, ih, pySplitNl_cons, if_pos rfl,
        snocLast_cons_of_ne_nil _ _ _ (pySplitNl_ne_nil t)]
    · rw [List.cons_append, pySplitNl_cons_of_ne a _ ha, ih, pySplitNl_cons_of_ne a t ha]
      rcases h' : pySplitNl t with _ | ⟨h, tl⟩
      · exact absurd h' (pySplitNl_ne_nil t)
      · cases tl with
        | nil => simp [snocLast]
        | cons y ys =>
          rw [snocLast_cons_of_ne_nil c h (y :: ys) (List.cons_ne_nil y ys)]
          simp only [List.headD_cons, List.tail_cons]
          rw [snocLast_cons_of_ne_nil c (a :: h) (y :: ys) (List.cons_ne_nil y ys)]

/-- The non-blank, per-line-stripped lines of a text: the sequence the spec
says `listManaged` must produce. -/
def cleanLines (s : PyStr) : List PyStr :=
  ((pySplitNl s).map pyStrip).filter (fun l => l ≠ [])

theorem cleanLines_cons_ws (c : Char) (t : PyStr) (h : isWS c = true) :
    cleanLines (c :: t) = cleanLines t := by
  unfold cleanLines
  by_cases hc : c = '\n'
  · subst hc
    rw [pySplitNl_cons, if_pos rfl]
    simp [pyStrip, pyLStrip, pyRStrip]
  · rw [pySplitNl_cons_of_ne c t hc]
    rcases h' : pySplitNl t with _ | ⟨hd, tl⟩
    · exact absurd h' (pySplitNl_ne_nil t)
    · simp only [List.headD_cons, List.tail_cons, List.map_cons, List.filter_cons]
      rw [pyStrip_cons_ws c hd h]

theorem cleanLines_snoc_ws (c : Char) (t : PyStr) (h : isWS c = true) :
    cleanLines (t ++ [c]) = cleanLines t := by
  unfold cleanLines
  by_cases hc : c = '\n'
  · subst hc
    rw [pySplitNl_append_newline]
    simp [pyStrip, pyLStrip, pyRStrip]
  · rw [pySplitNl_append_single t c hc]
    have key : ∀ r : List PyStr, r ≠ [] →
        ((snocLast c r).map pyStrip).filter (fun l => l ≠ []) =
          (r.map pyStrip).filter (fun l => l ≠ []) := by
      intro r
      induction r with
      | nil => intro hr; exact absurd rfl hr
      | cons x ys ih =>
        intro _
        cases ys with
        | nil => simp [snocLast, pyStrip_snoc_ws c x h]
        | cons y ys2 =>
          rw [snocLast_cons_of_ne_nil _ _ _ (by simp)]
          simp only [List.map_cons, List.filter_cons]
          rw [ih (by simp)]
          simp [List.filter_cons]
    exact key _ (pySplitNl_ne_nil t)

theorem cleanLines_pyLStrip (s : PyStr) : cleanLines (pyLStrip s) = cleanLines s := by
  induction s with
  | nil => rfl
  | cons c t ih =>
    by_cases h : isWS c = true
    · rw [show pyLStrip (c :: t) = pyLStrip t by simp [pyLStrip, List.dropWhile, h], ih,
        cleanLines_cons_ws c t h]
    · rw [show pyLStrip (c :: t) = c :: t by
        simp [pyLStrip, List.dropWhile]
        simp at h
        simp [h]]

theorem cleanLines_pyRStrip (s : PyStr) : cleanLines (pyRStrip s) = cleanLines s := by
  induction s using List.reverseRecOn with
  | nil => rfl
  | append_singleton t c ih =>
    by_cases h : isWS c = true
    · have : pyRStrip (t ++ [c]) = pyRStrip t := by
        unfold pyRStrip
        rw [List.reverse_append]
        simp [List.dropWhile, h]
      rw [this, ih, cleanLines_snoc_ws c t h]
    · have : pyRStrip (t ++ [c]) = t ++ [c] := by
        unfold pyRStrip
        rw [List.reverse_append]
        simp only [List.reverse_cons, List.reverse_nil, List.nil_append, List.singleton_append,
          List.dropWhile]
        simp at h
        simp [h]
      rw [this]

theorem cleanLines_pyStrip (s : PyStr) : cleanLines (pyStrip s) = cleanLines s := by
  unfold pyStrip
  rw [cleanLines_pyLStrip, cleanLines_pyRStrip]

theorem filter_map_pyStrip (ls : List PyStr) :
    (ls.filter (fun line => pyStrip line ≠ [])).map pyStrip =
      (ls.map pyStrip).filter (fun l => l ≠ []) := by
  induction ls with
  | nil => rfl
  | cons x xs ih =>
    simp only [List.map_cons, List.filter_cons]
    by_cases hx : pyStrip x = []
    · rw [if_neg (by simp [hx]), if_neg (by simp [hx])]
      exact ih
    · rw [if_pos (by simp [hx]), if_pos (by simp [hx]), List.map_cons, ih]

/-- `ChezmoiWrapper.get_managed_files` from `src/chezmoi.py`: when the exit
code is 0 and the stripped stdout is non-blank, it returns
`[line.strip() for line in result.stdout.strip().split("\n") if line.strip()]`;
otherwise it returns the empty list. -/
def get_managed_files (returncode : Int) (stdout : PyStr) : List PyStr :=
  if returncode = 0 ∧ pyStrip stdout ≠ [] then
    ((pySplitNl (pyStrip stdout)).filter (fun line => pyStrip line ≠ [])).map pyStrip
  else []

theorem get_managed_files_zero (stdout : PyStr) :
    get_managed_files 0 stdout = cleanLines stdout := by
  unfold get_managed_files
  by_cases h : pyStrip stdout = []
  · rw [if_neg (by simp [h])]
    rw [← cleanLines_pyStrip, h]
    rfl
  · rw [if_pos ⟨rfl, h⟩, filter_map_pyStrip, ← cleanLines_pyStrip]
    rfl

/-- C8: for every stdout text, `listManaged` (`get_managed_files` in
`src/chezmoi.py`, on a successful invocation) returns the sequence of the
text's non-blank lines with surrounding whitespace trimmed per line, in output
order; in particular on the output `"a\nb\n\n c \n"` it yields
`["a", "b", "c"]`. -/
theorem listManaged_nonblank_trimmed_lines :
    (∀ stdout : PyStr, get_managed_files 0 stdout = cleanLines stdout) ∧
    get_managed_files 0 "a\nb\n\n c \n".toList =
      ["a".toList, "b".toList, "c".toList] :=
  ⟨fun stdout => get_managed_files_zero stdout, by decide⟩

/-- Suffix of the text following the first occurrence of `pat` (`none` when
`pat` does not occur). -/
def afterFirst (pat : PyStr) : PyStr → Option PyStr
  | [] => if pat = [] then some [] else none
  | c :: rest =>
    if pat.isPrefixOf (c :: rest) then some ((c :: rest).drop pat.length)
    else afterFirst pat rest

/-- Prefix of the text before the first occurrence of `pat` (`none` when `pat`
does not occur). -/
def beforeFirst (pat : PyStr) : PyStr → Option PyStr
  | [] => if pat = [] then some [] else none
  | c :: rest =>
    if pat.isPrefixOf (c :: rest) then some []
    else (beforeFirst pat rest).map (fun r => c :: r)

/-- The capture of `re.search(r"diff --git a/(.*?) b/", line)` used by
`DiffStatsPanel.update_stats` and `DiffViewerScreen._extract_changed_files` in
`src/app/screens/diff.py`: the shortest run of characters between the first
occurrence of `"diff --git a/"` and the first subsequent `" b/"`. -/
def extractGitFile (line : PyStr) : Option PyStr :=
  (afterFirst ("diff --git a/".toList) line).bind
    (fun rest => beforeFirst (" b/".toList) rest)

/-- A line counted as an addition: starts with `+` but not with `+++`. -/
def isAddLine (l : PyStr) : Bool :=
  ("+".toList).isPrefixOf l && !(("+++".toList).isPrefixOf l)

/-- A line counted as a deletion: starts with `-` but not with `---`. -/
def isDelLine (l : PyStr) : Bool :=
  ("-".toList).isPrefixOf l && !(("---".toList).isPrefixOf l)

/-- A file-header line: starts with `diff --git`. -/
def isGitLine (l : PyStr) : Bool := ("diff --git".toList).isPrefixOf l

theorem prefix_false_of_head_ne {a b : Char} {p q l : PyStr}
    (hl : (a :: p).isPrefixOf l = true) (hab : a ≠ b) :
    (b :: q).isPrefixOf l = false := by
  cases l with
  | nil => simp [List.isPrefixOf] at hl
  | cons c t =>
    simp only [List.isPrefixOf, Bool.and_eq_true, beq_iff_eq] at hl
    have hbc : (b == c) = false := by
      refine beq_eq_false_iff_ne.mpr ?_
      rw [← hl.1]
      exact fun h => hab h.symm
    simp [List.isPrefixOf, hbc]

theorem git_not_add (line : PyStr) (hg : isGitLine line = true) :
    isAddLine line = false := by
  unfold isGitLine at hg
  rw [show "diff --git".toList = 'd' :: "iff --git".toList from rfl] at hg
  unfold isAddLine
  rw [show "+".toList = '+' :: "".toList from rfl]
  rw [prefix_false_of_head_ne hg (by decide)]
  rfl

theorem git_not_del (line : PyStr) (hg : isGitLine line = true) :
    isDelLine line = false := by
  unfold isGitLine at hg
  rw [show "diff --git".toList = 'd' :: "iff --git".toList from rfl] at hg
  unfold isDelLine
  rw [show "-".toList = '-' :: "".toList from rfl]
  rw [prefix_false_of_head_ne hg (by decide)]
  rfl

theorem add_not_del (line : PyStr) (ha : isAddLine line = true) :
    isDelLine line = false := by
  unfold isAddLine at ha
  have hp : ("+".toList).isPrefixOf line = true := (Bool.and_eq_true _ _ |>.mp ha).1
  rw [show "+".toList = '+' :: "".toList from rfl] at hp
  unfold isDelLine
  rw [show "-".toList = '-' :: "".toList from rfl]
  rw [prefix_false_of_head_ne hp (by decide)]
  rfl

/-- Accumulator of `DiffStatsPanel.update_stats`'s parsing loop. -/
structure StatsAcc where
  files : List PyStr
  adds : Nat
  dels : Nat

/-- One iteration of the `for line in lines` loop of
`DiffStatsPanel.update_stats` (`src/app/screens/diff.py`): file-header lines
feed the `files_changed` set, `+`/`-` lines (excluding `+++`/`---` headers)
bump the addition/deletion counters. -/
def statsStep (acc : StatsAcc) (line : PyStr) : StatsAcc :=
  if isGitLine line then
    match extractGitFile line with
    | some f =>
      { acc with files := if f ∈ acc.files then acc.files else acc.files ++ [f] }
    | none => acc
  else if isAddLine line then { acc with adds := acc.adds + 1 }
  else if isDelLine line then { acc with dels := acc.dels + 1 }
  else acc

theorem statsStep_adds (acc : StatsAcc) (line : PyStr) :
    (statsStep acc line).adds = acc.adds + (if isAddLine line then 1 else 0) := by
  unfold statsStep
  by_cases hg : isGitLine line = true
  · rw [if_pos hg, git_not_add line hg]
    cases extractGitFile line <;> simp
  · rw [if_neg hg]
    by_cases ha : isAddLine line = true
    · rw [if_pos ha, ha]
      simp
    · rw [if_neg ha]
      by_cases hd : isDelLine line = true
      · rw [if_pos hd]
        simp [ha]
      · rw [if_neg hd]
        simp [ha]

theorem statsStep_dels (acc : StatsAcc) (line : PyStr) :
    (statsStep acc line).dels = acc.dels + (if isDelLine line then 1 else 0) := by
  unfold statsStep
  by_cases hg : isGitLine line = true
  · rw [if_pos hg, git_not_del line hg]
    cases extractGitFile line <;> simp
  · rw [if_neg hg]
    by_cases ha : isAddLine line = true
    · rw [if_pos ha, add_not_del line ha]
      simp
    · rw [if_neg ha]
      by_cases hd : isDelLine line = true
      · rw [if_pos hd, hd]
        simp
      · rw [if_neg hd]
        simp [hd]

theorem foldl_statsStep_adds (lines : List PyStr) (acc : StatsAcc) :
    (lines.foldl statsStep acc).adds = acc.adds + lines.countP isAddLine := by
  induction lines generalizing acc with
  | nil => simp
  | cons l ls ih =>
    rw [List.foldl_cons, ih, statsStep_adds, List.countP_cons]
    by_cases h : isAddLine l = true <;> simp [h] <;> omega

theorem foldl_statsStep_dels (lines : List PyStr) (acc : StatsAcc) :
    (lines.foldl statsStep acc).dels = acc.dels + lines.countP isDelLine := by
  induction lines generalizing acc with
  | nil => simp
  | cons l ls ih =>
    rw [List.foldl_cons, ih, statsStep_dels, List.countP_cons]
    by_cases h : isDelLine l = true <;> simp [h] <;> omega

/-- The statistics displayed by the diff screen's statistics panel. -/
structure DiffStats where
  files_changed : Nat
  additions : Nat
  deletions : Nat
  net : Int
deriving DecidableEq

/-- `DiffStatsPanel.update_stats` (`src/app/screens/diff.py`): on blank diff
text it shows "No changes to analyze" and computes nothing (`none`); otherwise
it splits the diff on newlines, folds the parsing loop over the lines, and
displays files-changed, additions, deletions and net change. -/
def update_stats (diff : PyStr) : Option DiffStats :=
  if pyStrip diff = [] then none
  else
    let acc := (pySplitNl diff).foldl statsStep ⟨[], 0, 0⟩
    some ⟨acc.files.length, acc.adds, acc.dels, (acc.adds : Int) - (acc.dels : Int)⟩

/-- A two-file diff carrying three `+` lines (one of them the `+++` file
header) and two `-` lines (one of them the `---` file header). -/
def exampleDiff : PyStr :=
  "diff --git a/f1 b/f1\n--- a/f1\n+++ b/f1\n+x\n-y\ndiff --git a/f2 b/f2\n+z".toList

/-- C4: for every diff text, the computed statistics count as additions
exactly the lines starting with `+` that do not start with `+++`, as deletions
exactly the lines starting with `-` that do not start with `---`, and report
net change = additions - deletions; on the two-file example with 3 `+` lines
(one a `+++` header) and 2 `-` lines (one a `---` header) the result is
additions=2, deletions=1, files=2. -/
theorem diff_stats_counts :
    (∀ diff : PyStr,
      (update_stats diff).map (fun s => (s.additions, s.deletions, s.net)) =
        if pyStrip diff = [] then none
        else some ((pySplitNl diff).countP isAddLine, (pySplitNl diff).countP isDelLine,
          ((pySplitNl diff).countP isAddLine : Int) -
            ((pySplitNl diff).countP isDelLine : Int))) ∧
    update_stats exampleDiff = some ⟨2, 2, 1, 1⟩ := by
  constructor
  · intro diff
    unfold update_stats
    by_cases h : pyStrip diff = []
    · rw [if_pos h, if_pos h]
      rfl
    · rw [if_neg h, if_neg h]
      have ha := foldl_statsStep_adds (pySplitNl diff) ⟨[], 0, 0⟩
      have hd := foldl_statsStep_dels (pySplitNl diff) ⟨[], 0, 0⟩
      simp only [Nat.zero_add] at ha hd
      simp [ha, hd]
  · decide

/-- Option set of `ChezmoiWrapper.add` in `src/chezmoi.py` (call-site defaults
are `recursive := true` and `false` for every other option). -/
structure AddOptions where
  template : Bool
  encrypt : Bool
  recursive : Bool
  exact : Bool
  autotemplate : Bool
  follow : Bool
  create : Bool
  prompt : Bool
deriving DecidableEq

/-- Argument vector built by `ChezmoiWrapper.add` in `src/chezmoi.py`
(lines 305-325): `["add"]`, then the option flags in source order — note that
`recursive` is inverted: `--recursive=false` is appended when `recursive` is
false — then the targets. -/
def add_args (o : AddOptions) (targets : List String) : List String :=
  ["add"]
  ++ (if o.template then ["--template"] else [])
  ++ (if o.encrypt then ["--encrypt"] else [])
  ++ (if !o.recursive then ["--recursive=false"] else [])
  ++ (if o.exact then ["--exact"] else [])
  ++ (if o.autotemplate then ["--autotemplate"] else [])
  ++ (if o.follow then ["--follow"] else [])
  ++ (if o.create then ["--create"] else [])
  ++ (if o.prompt then ["--prompt"] else [])
  ++ targets

/-- The flag block of `add_args`, without the leading subcommand and the
trailing targets. -/
def add_flags (o : AddOptions) : List String :=
  (if o.template then ["--template"] else [])
  ++ (if o.encrypt then ["--encrypt"] else [])
  ++ (if !o.recursive then ["--recursive=false"] else [])
  ++ (if o.exact then ["--exact"] else [])
  ++ (if o.autotemplate then ["--autotemplate"] else [])
  ++ (if o.follow then ["--follow"] else [])
  ++ (if o.create then ["--create"] else [])
  ++ (if o.prompt then ["--prompt"] else [])

theorem add_args_decomp (o : AddOptions) (targets : List String) :
    add_args o targets = "add" :: (add_flags o ++ targets) := by
  simp [add_args, add_flags, List.append_assoc]

/-- The flag strings `ChezmoiWrapper.add` of `src/chezmoi.py` can emit. -/
def addFlagStrings : List String :=
  ["--template", "--encrypt", "--recursive=false", "--exact", "--autotemplate",
   "--follow", "--create", "--prompt"]

theorem add_flags_counts (o : AddOptions) :
    (add_flags o).count "--template" = (if o.template then 1 else 0) ∧
    (add_flags o).count "--encrypt" = (if o.encrypt then 1 else 0) ∧
    (add_flags o).count "--recursive=false" = (if o.recursive then 0 else 1) ∧
    (add_flags o).count "--exact" = (if o.exact then 1 else 0) ∧
    (add_flags o).count "--autotemplate" = (if o.autotemplate then 1 else 0) ∧
    (add_flags o).count "--follow" = (if o.follow then 1 else 0) ∧
    (add_flags o).count "--create" = (if o.create then 1 else 0) ∧
    (add_flags o).count "--prompt" = (if o.prompt then 1 else 0) ∧
    (add_flags o).all (fun s => s ∈ addFlagStrings) = true := by
  rcases o with ⟨t, e, r, x, a, f, c, p⟩
  cases t <;> cases e <;> cases r <;> cases x <;> cases a <;> cases f <;>
    cases c <;> cases p <;> decide

/-- Option set of `ChezmoiWrapper.add` in `src/app/chezmoi_wrapper.py`
(`privateFlag` stands for the Python keyword argument `private`; all options
default to false at the call sites). -/
structure AppAddOptions where
  template : Bool
  encrypt : Bool
  exact : Bool
  executable : Bool
  privateFlag : Bool
  readonly : Bool
deriving DecidableEq

/-- Argument vector built by `ChezmoiWrapper.add` in
`src/app/chezmoi_wrapper.py` (lines 87-102): `["add"]`, one flag per
true-valued option in source order, then the single path. -/
def app_add_args (o : AppAddOptions) (path : String) : List String :=
  ["add"]
  ++ (if o.template then ["--template"] else [])
  ++ (if o.encrypt then ["--encrypt"] else [])
  ++ (if o.exact then ["--exact"] else [])
  ++ (if o.executable then ["--executable"] else [])
  ++ (if o.privateFlag then ["--private"] else [])
  ++ (if o.readonly then ["--readonly"] else [])
  ++ [path]

/-- The flag block of `app_add_args`. -/
def app_add_flags (o : AppAddOptions) : List String :=
  (if o.template then ["--template"] else [])
  ++ (if o.encrypt then ["--encrypt"] else [])
  ++ (if o.exact then ["--exact"] else [])
  ++ (if o.executable then ["--executable"] else [])
  ++ (if o.privateFlag then ["--private"] else [])
  ++ (if o.readonly then ["--readonly"] else [])

theorem app_add_args_decomp (o : AppAddOptions) (path : String) :
    app_add_args o path = "add" :: (app_add_flags o ++ [path]) := by
  simp [app_add_args, app_add_flags, List.append_assoc]

/-- The flag strings the app-adapter `add` can emit. -/
def appAddFlagStrings : List String :=
  ["--template", "--encrypt", "--exact", "--executable", "--private", "--readonly"]

theorem app_add_flags_counts (o : AppAddOptions) :
    (app_add_flags o).count "--template" = (if o.template then 1 else 0) ∧
    (app_add_flags o).count "--encrypt" = (if o.encrypt then 1 else 0) ∧
    (app_add_flags o).count "--exact" = (if o.exact then 1 else 0) ∧
    (app_add_flags o).count "--executable" = (if o.executable then 1 else 0) ∧
    (app_add_flags o).count "--private" = (if o.privateFlag then 1 else 0) ∧
    (app_add_flags o).count "--readonly" = (if o.readonly then 1 else 0) ∧
    (app_add_flags o).all (fun s => s ∈ appAddFlagStrings) = true := by
  rcases o with ⟨t, e, x, u, v, r⟩
  cases t <;> cases e <;> cases x <;> cases u <;> cases v <;> cases r <;> decide

/-- C1 counterexample: in `src/chezmoi.py`, with `recursive := false` — a
false-valued option — the built argument vector contains the flag
`--recursive=false`, and with `recursive := true` — a true-valued option — it
contains no flag for `recursive` at all; both contradict "exactly one flag per
true-valued option and no flag for any false-valued option". -/
theorem add_args_recursive_counterexample :
    add_args ⟨false, false, false, false, false, false, false, false⟩ ["f"] =
      ["add", "--recursive=false", "f"] ∧
    (⟨false, false, false, false, false, false, false, false⟩ : AddOptions).recursive = false ∧
    add_args ⟨false, false, true, false, false, false, false, false⟩ ["f"] = ["add", "f"] ∧
    (⟨false, false, true, false, false, false, false, false⟩ : AddOptions).recursive = true := by
  refine ⟨rfl, rfl, rfl, rfl⟩

/-- C1 (amended): the `add` argument vector is the subcommand, then the flag
block, then the targets last; in `src/app/chezmoi_wrapper.py` the flag block
holds exactly one flag per true-valued option and none for a false-valued
option, and in `src/chezmoi.py` the same holds for every option except
`recursive`, whose flag `--recursive=false` appears exactly when the option is
false. -/
theorem add_args_flag_structure (o : AddOptions) (targets : List String)
    (ao : AppAddOptions) (path : String) :
    add_args o targets = "add" :: (add_flags o ++ targets) ∧
    (add_flags o).count "--template" = (if o.template then 1 else 0) ∧
    (add_flags o).count "--encrypt" = (if o.encrypt then 1 else 0) ∧
    (add_flags o).count "--recursive=false" = (if o.recursive then 0 else 1) ∧
    (add_flags o).count "--exact" = (if o.exact then 1 else 0) ∧
    (add_flags o).count "--autotemplate" = (if o.autotemplate then 1 else 0) ∧
    (add_flags o).count "--follow" = (if o.follow then 1 else 0) ∧
    (add_flags o).count "--create" = (if o.create then 1 else 0) ∧
    (add_flags o).count "--prompt" = (if o.prompt then 1 else 0) ∧
    (add_flags o).all (fun s => s ∈ addFlagStrings) = true ∧
    app_add_args ao path = "add" :: (app_add_flags ao ++ [path]) ∧
    (app_add_flags ao).count "--template" = (if ao.template then 1 else 0) ∧
    (app_add_flags ao).count "--encrypt" = (if ao.encrypt then 1 else 0) ∧
    (app_add_flags ao).count "--exact" = (if ao.exact then 1 else 0) ∧
    (app_add_flags ao).count "--executable" = (if ao.executable then 1 else 0) ∧
    (app_add_flags ao).count "--private" = (if ao.privateFlag then 1 else 0) ∧
    (app_add_flags ao).count "--readonly" = (if ao.readonly then 1 else 0) ∧
    (app_add_flags ao).all (fun s => s ∈ appAddFlagStrings) = true := by
  obtain ⟨h1, h2, h3, h4, h5, h6, h7, h8, h9⟩ := add_flags_counts o
  obtain ⟨g1, g2, g3, g4, g5, g6, g7⟩ := app_add_flags_counts ao
  exact ⟨add_args_decomp o targets, h1, h2, h3, h4, h5, h6, h7, h8, h9,
    app_add_args_decomp ao path, g1, g2, g3, g4, g5, g6, g7⟩

/-- Outcome of a `subprocess.run` call. -/
inductive RunOutcome where
  | completed (stdout stderr : String) (returncode : Int)
  | fileNotFound
  | timedOut
deriving DecidableEq

/-- Did the subprocess call fail because the executable is absent? -/
def RunOutcome.isFNF : RunOutcome → Bool
  | .fileNotFound => true
  | _ => false

/-- The exceptions the `src/chezmoi.py` adapter can let escape:
`ChezmoiNotFoundError`, `ChezmoiCommandError` (message, stderr, returncode),
an uncaught `subprocess.CalledProcessError`, and an uncaught
`subprocess.TimeoutExpired`. -/
inductive ChezmoiErr where
  | notFound (msg : String)
  | commandError (msg stderr : String) (returncode : Int)
  | calledProcess (returncode : Int)
  | timeoutExpired
deriving DecidableEq

/-- Is the result the distinct NotFound error? -/
def isNotFoundErr {α : Type} : Except ChezmoiErr α → Bool
  | .error (.notFound _) => true
  | _ => false

/-- Is the result a ChezmoiCommandError? -/
def isCommandErr {α : Type} : Except ChezmoiErr α → Bool
  | .error (.commandError _ _ _) => true
  | _ => false

/-- `ChezmoiWrapper.run_command` (`src/chezmoi.py`, lines 105-118):
`FileNotFoundError` is converted to `ChezmoiNotFoundError`; with `check=True`
a non-zero exit raises `CalledProcessError`; a timeout propagates uncaught;
otherwise the completed process is returned. -/
def run_command (check : Bool) (out : RunOutcome) :
    Except ChezmoiErr (String × String × Int) :=
  match out with
  | .completed so se rc =>
      if check = true ∧ rc ≠ 0 then .error (.calledProcess rc) else .ok (so, se, rc)
  | .fileNotFound => .error (.notFound "chezmoi is not installed or not in PATH")
  | .timedOut => .error .timeoutExpired

/-- `ChezmoiWrapper.get_version` (`src/chezmoi.py`, lines 72-81): runs
`chezmoi --version` with `check=True`; only `FileNotFoundError` is converted
(to `ChezmoiNotFoundError`); returns the stripped stdout. -/
def get_version (out : RunOutcome) : Except ChezmoiErr String :=
  match out with
  | .completed so _ rc =>
      if rc ≠ 0 then .error (.calledProcess rc) else .ok so.trim
  | .fileNotFound => .error (.notFound "chezmoi is not installed or not in PATH")
  | .timedOut => .error .timeoutExpired

/-- `ChezmoiWrapper.check_installed` (`src/chezmoi.py`, lines 51-60): true iff
the probe completes with exit code 0; `SubprocessError` (timeouts included)
and `FileNotFoundError` fold into false. -/
def check_installed (out : RunOutcome) : Bool :=
  match out with
  | .completed _ _ rc => rc == 0
  | .fileNotFound => false
  | .timedOut => false

/-- The only error type of `src/app/chezmoi_wrapper.py`:
`ChezmoiCommandError`, carrying just a message. -/
inductive AppErr where
  | commandError (msg : String)
deriving DecidableEq

/-- `ChezmoiWrapper._run_command` (`src/app/chezmoi_wrapper.py`, lines
24-58): a timeout and a missing executable are both converted into
`ChezmoiCommandError`; with `check` (default true) a non-zero exit also
raises `ChezmoiCommandError`. -/
def app_run_command (chezmoi_path : String) (args : List String) (check : Bool)
    (out : RunOutcome) : Except AppErr (String × String × Int) :=
  match out with
  | .completed so se rc =>
      if check = true ∧ rc ≠ 0 then
        .error (.commandError
          ("Command failed: " ++ String.intercalate " " args ++ "\nError: " ++ se))
      else .ok (so, se, rc)
  | .timedOut =>
      .error (.commandError ("Command timed out: " ++ String.intercalate " " args))
  | .fileNotFound =>
      .error (.commandError
        ("chezmoi not found at " ++ chezmoi_path ++
          ". Please install chezmoi or specify the correct path."))

/-- C2 counterexample: the app adapter (`src/app/chezmoi_wrapper.py`) reports
a missing executable as its general `ChezmoiCommandError` — it defines no
NotFound error at all — so absence of the executable is not surfaced as a
distinct NotFound condition there. -/
theorem app_not_found_conflated :
    app_run_command "chezmoi" ["status"] true .fileNotFound =
      .error (.commandError
        "chezmoi not found at chezmoi. Please install chezmoi or specify the correct path.") :=
  rfl

/-- C2 (amended): in `src/chezmoi.py` a missing executable is surfaced as the
distinct `ChezmoiNotFoundError` — `run_command` and `get_version` produce a
NotFound error on exactly the file-not-found outcome and never produce a
`ChezmoiCommandError` for it — while `src/app/chezmoi_wrapper.py` reports the
missing executable as its general `ChezmoiCommandError` with an installation
hint. -/
theorem not_found_distinct (check : Bool) (out : RunOutcome)
    (chezmoi_path : String) (args : List String) :
    isNotFoundErr (run_command check out) = out.isFNF ∧
    isCommandErr (run_command check out) = false ∧
    isNotFoundErr (get_version out) = out.isFNF ∧
    isCommandErr (get_version out) = false ∧
    app_run_command chezmoi_path args check .fileNotFound =
      .error (.commandError ("chezmoi not found at " ++ chezmoi_path ++
        ". Please install chezmoi or specify the correct path.")) := by
  refine ⟨?_, ?_, ?_, ?_, rfl⟩ <;>
    cases out <;>
      first
        | rfl
        | (simp only [run_command, get_version]
           split <;> rfl)

/-- A constructed subprocess invocation: argument vector, timeout in seconds
(`none` when no `timeout` argument is passed), whether `check=True` is passed
to `subprocess.run`, and whether output is captured as text. -/
structure Invocation where
  cmd : List String
  timeout : Option Nat
  check : Bool
  captureText : Bool
deriving DecidableEq

/-- The probe of `ChezmoiWrapper.check_installed` (`src/chezmoi.py`, lines
52-57): `chezmoi --version` with `timeout=5`. -/
def check_installed_inv : Invocation :=
  { cmd := ["chezmoi", "--version"], timeout := some 5, check := false,
    captureText := true }

/-- The invocation of `ChezmoiWrapper.get_version` (`src/chezmoi.py`, lines
73-78): `chezmoi --version` with `check=True` and no `timeout` argument. -/
def get_version_inv : Invocation :=
  { cmd := ["chezmoi", "--version"], timeout := none, check := true,
    captureText := true }

/-- The default of `run_command`'s `timeout` parameter; every call site in
`src/chezmoi.py` leaves the timeout at this default. -/
def run_command_default_timeout : Nat := 30

/-- The invocation of `ChezmoiWrapper.run_command` (`src/chezmoi.py`, lines
105-116): `chezmoi` plus the arguments, plus `--format <fmt>` when a format
is given, with the given `check` (parameter default false) and `timeout`. -/
def run_command_inv (args : List String) (format : Option String) (check : Bool)
    (timeout : Nat) : Invocation :=
  { cmd := ["chezmoi"] ++ args ++
      (match format with | some f => ["--format", f] | none => [])
  , timeout := some timeout, check := check, captureText := true }

/-- The invocation of `ChezmoiWrapper._run_command`
(`src/app/chezmoi_wrapper.py`, lines 38-43): the configured executable path
plus the arguments, with `timeout=30` and no `check` passed to
`subprocess.run`. -/
def app_run_command_inv (chezmoi_path : String) (args : List String) :
    Invocation :=
  { cmd := chezmoi_path :: args, timeout := some 30, check := false,
    captureText := true }

/-- C3 counterexample: the `get_version` invocation carries no timeout at all
(the claim requires it to carry the short fixed ~5s timeout), while the
installation probe does carry `timeout=5`. -/
theorem get_version_inv_no_timeout :
    get_version_inv.timeout = none ∧ check_installed_inv.timeout = some 5 :=
  ⟨rfl, rfl⟩

/-- C3 (amended): `run_command` invocations carry the fixed 30-second default
timeout (used by every mutating/query operation of `src/chezmoi.py`), the app
adapter's `_run_command` always carries 30 seconds, and the installation
probe `check_installed` carries 5 seconds; the `get_version` invocation,
however, passes no timeout at all. -/
theorem invocation_timeouts (args : List String) (format : Option String)
    (check : Bool) (chezmoi_path : String) :
    (run_command_inv args format check run_command_default_timeout).timeout =
      some 30 ∧
    (app_run_command_inv chezmoi_path args).timeout = some 30 ∧
    check_installed_inv.timeout = some 5 ∧
    get_version_inv.timeout = none :=
  ⟨rfl, rfl, rfl, rfl⟩

/-- The message of the `ChezmoiCommandError` raised by
`ChezmoiWrapper.add` (`src/chezmoi.py`): Python renders
`f"Failed to add files: {targets}"` with the list repr; the exact rendering
of the target list is immaterial to the claims, which constrain the carried
stderr and exit code. -/
def add_fail_message (targets : List String) : String :=
  "Failed to add files: [" ++ String.intercalate ", " targets ++ "]"

/-- `ChezmoiWrapper.add` of `src/chezmoi.py` (lines 302-335) as a function of
the subprocess outcome: the argument vector it runs is `add_args` (see
`add_args_flag_structure`); it calls `run_command` with `check` left at its
default false, and on a non-zero exit raises `ChezmoiCommandError` carrying
the subprocess's stderr and exit code. -/
def chezmoi_add (targets : List String) (out : RunOutcome) :
    Except ChezmoiErr String :=
  match run_command false out with
  | .error e => .error e
  | .ok (so, se, rc) =>
      if rc ≠ 0 then .error (.commandError (add_fail_message targets) se rc)
      else .ok so

/-- C7: for every add invocation whose subprocess exits with a non-zero code,
a Command-Error is raised that carries the subprocess's stderr exactly and
also carries the exit code. -/
theorem add_nonzero_raises (targets : List String) (so se : String) (rc : Int)
    (h : rc ≠ 0) :
    chezmoi_add targets (.completed so se rc) =
      .error (.commandError (add_fail_message targets) se rc) := by
  unfold chezmoi_add run_command
  simp only [if_neg (show ¬ (false = true ∧ rc ≠ 0) by simp)]
  simp [h]

/-- C7 witness: exit code 1 with stderr "boom". -/
theorem add_nonzero_raises_witness :
    chezmoi_add ["f"] (.completed "" "boom" 1) =
      .error (.commandError (add_fail_message ["f"]) "boom" 1) :=
  add_nonzero_raises ["f"] "" "boom" 1 (by decide)

/-- `ChezmoiWrapper.is_managed` (`src/app/chezmoi_wrapper.py`, lines 184-210)
as a function of the `managed()` result and of an abstract path resolver
modelling `str(Path(p).expanduser().resolve())` (`none` meaning the
resolution raised). A `ChezmoiCommandError` from `managed()` yields false; a
managed entry whose resolution raises is skipped; an exception while
resolving the candidate itself propagates out (`Except.error ()`). -/
def is_managed (resolve : String → Option String)
    (managedFiles : Except AppErr (List String)) (path : String) :
    Except Unit Bool :=
  match managedFiles with
  | .error _ => .ok false
  | .ok files =>
    match resolve path with
    | none => .error ()
    | some expanded => .ok (files.any (fun m => resolve m == some expanded))

/-- C5: when the candidate resolves, `is_managed` returns true exactly when
some managed entry resolves to the same canonical path (entries whose
resolution fails are skipped, they merely never witness the match); the empty
managed list gives false; and a failed tool invocation gives false instead of
propagating. -/
theorem is_managed_spec (resolve : String → Option String)
    (files : List String) (path c : String) (e : AppErr)
    (h : resolve path = some c) :
    is_managed resolve (.ok files) path =
      .ok (decide (∃ m ∈ files, resolve m = some c)) ∧
    is_managed resolve (.ok []) path = .ok false ∧
    is_managed resolve (.error e) path = .ok false := by
  refine ⟨?_, ?_, rfl⟩
  · have hany : (files.any (fun m => resolve m == some c)) =
        decide (∃ m ∈ files, resolve m = some c) := by
      by_cases hx : ∃ m ∈ files, resolve m = some c
      · rw [decide_eq_true hx, List.any_eq_true]
        obtain ⟨m, hm, hr⟩ := hx
        exact ⟨m, hm, by simp [hr]⟩
      · rw [decide_eq_false hx, Bool.eq_false_iff]
        intro hb
        rw [List.any_eq_true] at hb
        obtain ⟨m, hm, hr⟩ := hb
        exact hx ⟨m, hm, by simpa using hr⟩
    unfold is_managed
    rw [h]
    exact congrArg Except.ok hany
  · unfold is_managed
    rw [h]
    rfl

/-- Concrete resolver used by the C5 witness: agrees with
`Path.expanduser().resolve()` on a layout where `~` is `/home/u`, `.bashrc`
is a regular file, and the entry "broken" fails to resolve. -/
def resolveW : String → Option String := fun s =>
  if s = "~/.bashrc" then some "/home/u/.bashrc"
  else if s = "/home/u/.bashrc" then some "/home/u/.bashrc"
  else none

/-- C5 witness: a managed list holding one entry equal (after resolution) to
the candidate and one unresolvable entry. -/
theorem is_managed_spec_witness :
    is_managed resolveW (.ok ["/home/u/.bashrc", "broken"]) "~/.bashrc" =
      .ok (decide (∃ m ∈ ["/home/u/.bashrc", "broken"],
        resolveW m = some "/home/u/.bashrc")) ∧
    is_managed resolveW (.ok []) "~/.bashrc" = .ok false ∧
    is_managed resolveW (.error (.commandError "boom")) "~/.bashrc" = .ok false :=
  is_managed_spec resolveW ["/home/u/.bashrc", "broken"] "~/.bashrc"
    "/home/u/.bashrc" (.commandError "boom") (by decide)

/-- JSON values: the shape of Python's `json.loads` result. -/
inductive Json where
  | null
  | bool (b : Bool)
  | num (n : Int)
  | str (s : String)
  | arr (xs : List Json)
  | obj (fields : List (String × Json))

/-- The empty mapping `{}`. -/
def emptyDict : Json := .obj []

/-- `ChezmoiWrapper.get_data` (`src/chezmoi.py`, lines 209-221) as a function
of the subprocess result and of `json.loads` (an abstract parser returning
`none` on `JSONDecodeError`): on exit code 0 with non-blank stdout it parses
the JSON, degrading to `{}` on a parse failure; otherwise it returns `{}`.
It is total — no error escapes. -/
def get_data (loads : String → Option Json) (returncode : Int)
    (stdout : String) : Json :=
  if returncode = 0 ∧ stdout.trim ≠ "" then
    match loads stdout with
    | some v => v
    | none => emptyDict
  else emptyDict

/-- What the amended claim says `getTemplateData` does, stated over the same
abstract parser: a valid single JSON document parses to its tree when the
invocation exited zero with non-blank output, and everything else — empty
output, invalid JSON, or a non-zero exit — degrades to the empty mapping. -/
def get_data_claim (loads : String → Option Json) (returncode : Int)
    (stdout : String) : Json :=
  match loads stdout with
  | some v => if returncode = 0 ∧ stdout.trim ≠ "" then v else emptyDict
  | none => emptyDict

/-- Parser model used by the C6 counterexample: agrees with `json.loads` on
the input "null", which is a valid single JSON document. -/
def loadsNull : String → Option Json := fun s =>
  if s = "null" then some .null else none

/-- C6 counterexample: on a failed invocation (exit code 1) whose stdout is
the valid JSON document "null", `get_data` returns the empty mapping, not the
parsed JSON tree — the claim quantifies over every stdout text but the code
also gates on the exit code. -/
theorem get_data_nonzero_exit_counterexample :
    get_data loadsNull 1 "null" = emptyDict ∧
    loadsNull "null" = some Json.null ∧
    emptyDict ≠ Json.null := by
  refine ⟨?_, rfl, fun hh => Json.noConfusion hh⟩
  unfold get_data
  rw [if_neg (fun hh => absurd hh.1 (by decide))]

/-- C6 (amended): `getTemplateData` returns the parsed JSON tree when the
invocation exits zero and stdout is a non-blank valid JSON document, and
returns the empty mapping — never raising, the function is total — when the
output is empty, is not valid JSON, or came from a non-zero exit. -/
theorem get_data_matches_claim (loads : String → Option Json)
    (returncode : Int) (stdout : String) :
    get_data loads returncode stdout = get_data_claim loads returncode stdout := by
  unfold get_data get_data_claim
  by_cases h : returncode = 0 ∧ stdout.trim ≠ ""
  · rw [if_pos h]
    cases loads stdout with
    | some v => exact (if_pos h).symm
    | none => rfl
  · rw [if_neg h]
    cases loads stdout with
    | some v => exact (if_neg h).symm
    | none => rfl

/-- The fields of `DiffViewerScreen` (`src/app/screens/diff.py`, `__init__`)
that the apply action reads. -/
structure DiffScreenState where
  target : String
  changed_files : List String
  current_diff : String
  has_error : Bool
deriving DecidableEq

/-- The effect triggered by the apply action. Only `confirmDialog` can lead
to a subprocess invocation: the apply worker is started exclusively from
`handle_apply_confirm` after the dialog confirms. -/
inductive ApplyEffect where
  | notifyErrorBlocked
  | notifyNothingToApply
  | confirmDialog (message : String)
deriving DecidableEq

/-- The confirmation message built by `DiffViewerScreen.action_apply`
(`src/app/screens/diff.py`, lines 517-528). -/
def apply_confirm_message (s : DiffScreenState) : String :=
  if s.target ≠ "" then
    "This will apply changes to:\n  " ++ s.target ++ "\n\nAre you sure?"
  else
    let base := "This will apply changes to " ++ toString s.changed_files.length ++
      " file(s):\n" ++
      String.intercalate "\n" ((s.changed_files.take 5).map (fun f => "  • " ++ f))
    (if s.changed_files.length > 5 then
      base ++ "\n  ... and " ++ toString (s.changed_files.length - 5) ++ " more"
    else base) ++ "\n\nAre you sure you want to continue?"

/-- `DiffViewerScreen.action_apply` (`src/app/screens/diff.py`, lines
504-539): with the error panel shown it only notifies; with empty diff text
it only notifies "No changes to apply"; otherwise it pushes the confirmation
dialog. The method mutates no state field, so the state is returned
unchanged. -/
def action_apply (s : DiffScreenState) : DiffScreenState × ApplyEffect :=
  if s.has_error then (s, .notifyErrorBlocked)
  else if s.current_diff = "" then (s, .notifyNothingToApply)
  else (s, .confirmDialog (apply_confirm_message s))

/-- C9 counterexample: with the error panel shown and empty diff text,
triggering apply reports the error-blocked message, not "nothing to apply" —
the claim's "reports that there is nothing to apply" fails in that state
(while the no-subprocess part still holds). -/
theorem apply_empty_with_error_counterexample :
    (action_apply ⟨"", [], "", true⟩).2 = ApplyEffect.notifyErrorBlocked ∧
    ApplyEffect.notifyErrorBlocked ≠ ApplyEffect.notifyNothingToApply :=
  ⟨rfl, by decide⟩

/-- C9 (amended): triggering apply with empty current diff text never opens
the confirmation dialog — hence never reaches the subprocess — and leaves the
displayed state unchanged; it reports "nothing to apply" when no error is
displayed, and reports the error-blocked message when one is. -/
theorem apply_empty_diff_noop (s : DiffScreenState)
    (h : s.current_diff = "") :
    (action_apply s).1 = s ∧
    (action_apply s).2 = (if s.has_error then ApplyEffect.notifyErrorBlocked
      else ApplyEffect.notifyNothingToApply) := by
  cases hhe : s.has_error <;> simp [action_apply, hhe, h]

/-- C9 witness: empty diff, no error shown. -/
theorem apply_empty_diff_noop_witness :
    (action_apply ⟨"", ["a"], "", false⟩).1 = ⟨"", ["a"], "", false⟩ ∧
    (action_apply ⟨"", ["a"], "", false⟩).2 =
      (if (⟨"", ["a"], "", false⟩ : DiffScreenState).has_error then
        ApplyEffect.notifyErrorBlocked else ApplyEffect.notifyNothingToApply) :=
  apply_empty_diff_noop ⟨"", ["a"], "", false⟩ rfl

/-- Dispatch target chosen by `DiffViewerScreen.on_worker_state_changed`
(`src/app/screens/diff.py`, lines 565-600) for a successfully completed
worker that returned a `(success, content, error)` triple. -/
inductive WorkerDispatch where
  | loadedDiff (content : String)
  | applySuccess
  | applyErrorNotify (error : String)
  | diffError (error : String)
deriving DecidableEq

/-- Python `"apply" in error.lower()`. -/
def mentionsApply (error : String) : Bool :=
  decide ("apply".toList <:+: error.toLower.toList)

/-- The triple-shape dispatch of `on_worker_state_changed`: `update_diff`
with the fetched text when `success and not error and content`; the
apply-success branch (notify applied, refresh) when `success and not
content`; otherwise error handling, split on whether the error message
mentions "apply". -/
def on_worker_success : Bool × String × String → WorkerDispatch
  | (success, content, error) =>
    if success = true ∧ error = "" ∧ content ≠ "" then .loadedDiff content
    else if success = true ∧ content = "" then .applySuccess
    else if mentionsApply error then .applyErrorNotify error
    else .diffError error

/-- Did the dispatch take the loaded-diff path? -/
def WorkerDispatch.isLoadedDiff : WorkerDispatch → Bool
  | .loadedDiff _ => true
  | _ => false

/-- C10: the worker-completion handler discriminates results only by the
shape of the `(success, content, error)` triple: the loaded-diff path is
taken exactly when success holds, the error slot is empty and the content is
non-empty — hence only when success holds and content is non-empty — and the
successful empty-diff fetch `(True, "", "")` is dispatched to the
apply-success branch instead of the empty-diff display path
(`loadedDiff ""`). -/
theorem worker_dispatch_shape (success : Bool) (content error : String) :
    (on_worker_success (success, content, error)).isLoadedDiff =
      (success && (error == "") && (content != "")) ∧
    on_worker_success (true, "", "") = WorkerDispatch.applySuccess ∧
    on_worker_success (true, "", "") ≠ WorkerDispatch.loadedDiff "" := by
  refine ⟨?_, rfl, by decide⟩
  show (if success = true ∧ error = "" ∧ content ≠ "" then WorkerDispatch.loadedDiff content
    else if success = true ∧ content = "" then WorkerDispatch.applySuccess
    else if mentionsApply error = true then WorkerDispatch.applyErrorNotify error
    else WorkerDispatch.diffError error).isLoadedDiff =
    (success && error == "" && content != "")
  by_cases h1 : success = true ∧ error = "" ∧ content ≠ ""
  · rw [if_pos h1]
    obtain ⟨hs, he, hc⟩ := h1
    simp [WorkerDispatch.isLoadedDiff, hs, he, hc]
  · rw [if_neg h1]
    have hb : (success && (error == "") && (content != "")) = false := by
      rw [Bool.eq_false_iff]
      intro hbb
      simp only [Bool.and_eq_true, beq_iff_eq, bne_iff_ne] at hbb
      exact h1 ⟨hbb.1.1, hbb.1.2, hbb.2⟩
    rw [hb]
    split
    · rfl
    · split
      · rfl
      · rfl
